import Mathlib

/-!
Verification of the cc-taxii2-client pagination and error-handling core.

The definitions below are a shallow embedding of the Rust sources:
  - src/error.rs          : the TaxiiError taxonomy
  - src/taxiiclient.rs    : Collection and Collections response shapes
  - src/cctaxiiclient.rs  : CCTaxiiClient.new, request, get_collections and
                            the pagination loop of get_cc_indicators
HTTP transport is abstracted at the ureq call boundary: every scripted
interaction supplies the outcome the HTTP agent would have produced, and the
embedding reproduces exactly what the Rust code does with that outcome.
-/

/-- A JSON value, used to state what the serde-derived decoders accept. -/
inductive Json where
  | null : Json
  | bool (b : Bool) : Json
  | num (n : Int) : Json
  | str (s : String) : Json
  | arr (elems : List Json) : Json
  | obj (fields : List (String × Json)) : Json

/-- The data of a ureq HTTP response that the client library ever looks at:
the embedding keeps it opaque apart from equality. -/
structure Response where
  status : Nat
  body : String
  deriving DecidableEq

/-- The error taxonomy of src/error.rs, one constructor per enum variant,
carrying exactly what the Rust variant carries. -/
inductive TaxiiError where
  | TaxiiConnectionError (msg : String) : TaxiiError
  | TaxiiAuthorizationError (resp : Response) : TaxiiError
  | TaxiiNotFound (resp : Response) : TaxiiError
  | TaxiiGenericError (resp : Response) : TaxiiError
  | TaxiiCollectionError (msg : String) : TaxiiError
  | JsonDeserializationError (msg : String) : TaxiiError
  deriving DecidableEq

/-- The 64 digits of the standard Base64 alphabet, in order. -/
def base64Alphabet : List Char :=
  "ABCDEFGHIJKLMNOPQRSTUVWXYZabcdefghijklmnopqrstuvwxyz0123456789+/".toList

/-- Digit n of the standard Base64 alphabet. -/
def base64Digit (n : Nat) : Char :=
  base64Alphabet.getD n 'A'

/-- Standard Base64 with padding (RFC 4648 section 4) over a byte list,
modelling the external base64 crate function used by CCTaxiiClient.new. -/
def base64EncodeBytes : List Nat → List Char
  | [] => []
  | [a] =>
      [base64Digit (a / 4), base64Digit (a % 4 * 16), '=', '=']
  | [a, b] =>
      [base64Digit (a / 4), base64Digit (a % 4 * 16 + b / 16),
       base64Digit (b % 16 * 4), '=']
  | a :: b :: c :: rest =>
      base64Digit (a / 4) :: base64Digit (a % 4 * 16 + b / 16) ::
      base64Digit (b % 16 * 4 + c / 64) :: base64Digit (c % 64) ::
      base64EncodeBytes rest

/-- Base64 of the UTF-8 bytes of a string, as base64::encode(key.as_bytes()). -/
def base64Encode (s : String) : String :=
  String.mk (base64EncodeBytes ((String.toUTF8 s).toList.map UInt8.toNat))

/-- The stored state of a CCTaxiiClient (src/cctaxiiclient.rs): the ureq Agent
holds no data relevant to the embedding and is omitted. -/
structure CCTaxiiClient where
  base_url : String
  common_headers : List (String × String)
  account : String
  deriving DecidableEq

/-- CCTaxiiClient::new from src/cctaxiiclient.rs: eagerly computes the
Basic-auth header from username:api_key and stores the three fixed headers. -/
def CCTaxiiClient.new (username api_key : String) : CCTaxiiClient :=
  ⟨"https://taxii2.cloudcover.net",
   [("Content-Type", "application/taxii+json;version=2.1"),
    ("Accept", "application/taxii+json;version=2.1"),
    ("Authorization", "Basic " ++ base64Encode (username ++ ":" ++ api_key))],
   username⟩

/-- Outcome of one ureq agent call, the boundary at which the Rust request
method distinguishes: Ok(response), Err(Status(code, response)), or any
other ureq error (connect, DNS, timeout, ...). -/
inductive CallOutcome where
  | success (resp : Response) : CallOutcome
  | statusError (code : Nat) (resp : Response) : CallOutcome
  | transportError : CallOutcome
  deriving DecidableEq

/-- The error-classification match of CCTaxiiClient::request
(src/cctaxiiclient.rs lines 112-122), applied to the agent call outcome. -/
def request (outcome : CallOutcome) : Except TaxiiError Response :=
  match outcome with
  | .success resp => .ok resp
  | .statusError code resp =>
      if code = 401 then .error (.TaxiiAuthorizationError resp)
      else if code = 404 then .error (.TaxiiNotFound resp)
      else .error (.TaxiiGenericError resp)
  | .transportError => .error (.TaxiiConnectionError "Request failed to execute")

/-- One TAXII collection (src/taxiiclient.rs struct Collection). -/
structure Collection where
  can_read : Bool
  can_write : Bool
  id : String
  media_types : List String
  name : String
  title : String
  deriving DecidableEq

/-- The collections container (src/taxiiclient.rs struct Collections). -/
structure Collections where
  collections : List Collection
  deriving DecidableEq

/-- The collections-listing endpoint that CCTaxiiClient::get_collections
requests for a given root (src/cctaxiiclient.rs line 133). -/
def collectionsEndpoint (root : String) : String :=
  root ++ "/collections/"

/-- CCTaxiiClient::get_collections (src/cctaxiiclient.rs lines 132-139):
requests {root}/collections/ and projects the decoded container down to the
ordered id list. The request-and-decode of the listing response is scripted
by listingServer, a map from the requested endpoint to its outcome. -/
def get_collections (root : String)
    (listingServer : String → Except TaxiiError Collections) :
    Except TaxiiError (List String) :=
  (listingServer (collectionsEndpoint root)).map
    (fun c => c.collections.map Collection.id)

/-- One indicator record (src/cctaxiiclient.rs struct CCIndicator):
eleven required string fields. -/
structure CCIndicator where
  created : String
  description : String
  id : String
  modified : String
  name : String
  pattern : String
  pattern_type : String
  pattern_version : String
  spec_version : String
  type : String
  valid_from : String
  deriving DecidableEq

/-- One page envelope (src/cctaxiiclient.rs struct CCEnvelope): optional
more flag, optional next cursor, required object list. -/
structure CCEnvelope where
  more : Option Bool
  next : Option String
  objects : List CCIndicator
  deriving DecidableEq

/-- First binding of a key in a JSON object, as serde sees named fields. -/
def jsonLookup (key : String) : List (String × Json) → Option Json
  | [] => none
  | (k, v) :: rest => if k = key then some v else jsonLookup key rest

/-- serde decoding of an Option bool field: absent or null is none,
a boolean is some, anything else is a type error. -/
def decodeOptBool (fieldName : String) : Option Json → Except String (Option Bool)
  | none => .ok none
  | some .null => .ok none
  | some (.bool b) => .ok (some b)
  | some _ => .error ("invalid type for field " ++ fieldName)

/-- serde decoding of an Option string field: absent or null is none,
a string is some, anything else is a type error. -/
def decodeOptString (fieldName : String) : Option Json → Except String (Option String)
  | none => .ok none
  | some .null => .ok none
  | some (.str s) => .ok (some s)
  | some _ => .error ("invalid type for field " ++ fieldName)

/-- serde decoding of a required string field: absent is a missing-field
error, a string succeeds, anything else is a type error. -/
def decodeReqString (fieldName : String) : Option Json → Except String String
  | none => .error ("missing field " ++ fieldName)
  | some (.str s) => .ok s
  | some _ => .error ("invalid type for field " ++ fieldName)

/-- The serde-derived Deserialize for CCIndicator: all eleven fields are
required strings; unknown fields are ignored. -/
def deserializeCCIndicator : Json → Except String CCIndicator
  | .obj fields => do
      let created ← decodeReqString "created" (jsonLookup "created" fields)
      let description ← decodeReqString "description" (jsonLookup "description" fields)
      let id ← decodeReqString "id" (jsonLookup "id" fields)
      let modified ← decodeReqString "modified" (jsonLookup "modified" fields)
      let name ← decodeReqString "name" (jsonLookup "name" fields)
      let pattern ← decodeReqString "pattern" (jsonLookup "pattern" fields)
      let pattern_type ← decodeReqString "pattern_type" (jsonLookup "pattern_type" fields)
      let pattern_version ← decodeReqString "pattern_version" (jsonLookup "pattern_version" fields)
      let spec_version ← decodeReqString "spec_version" (jsonLookup "spec_version" fields)
      let ty ← decodeReqString "type" (jsonLookup "type" fields)
      let valid_from ← decodeReqString "valid_from" (jsonLookup "valid_from" fields)
      .ok ⟨created, description, id, modified, name, pattern, pattern_type,
           pattern_version, spec_version, ty, valid_from⟩
  | _ => .error "invalid type: expected an object"

/-- Element-wise decoding of a JSON array of indicators (serde Vec). -/
def decodeIndicatorList : List Json → Except String (List CCIndicator)
  | [] => .ok []
  | j :: rest => do
      let i ← deserializeCCIndicator j
      let is ← decodeIndicatorList rest
      .ok (i :: is)

/-- The serde-derived Deserialize for CCEnvelope: more and next are optional
and default to none when absent; objects is required (a Vec field has no
default), so a body without objects is a decode error. -/
def deserializeCCEnvelope : Json → Except String CCEnvelope
  | .obj fields =>
      match decodeOptBool "more" (jsonLookup "more" fields) with
      | .error msg => .error msg
      | .ok more =>
          match decodeOptString "next" (jsonLookup "next" fields) with
          | .error msg => .error msg
          | .ok next =>
              match jsonLookup "objects" fields with
              | none => .error "missing field objects"
              | some (.arr elems) =>
                  match decodeIndicatorList elems with
                  | .error msg => .error msg
                  | .ok objects => .ok ⟨more, next, objects⟩
              | some _ => .error "invalid type for field objects"
  | _ => .error "invalid type: expected an object"

/-- The scripted outcome of one objects-page fetch: either the request or
the JSON decode failed with the given TaxiiError, or it produced an
envelope. -/
inductive PageResponse where
  | error (e : TaxiiError) : PageResponse
  | ok (env : CCEnvelope) : PageResponse
  deriving DecidableEq

/-- A page outcome derived from a JSON body exactly as the loop body of
get_cc_indicators does: response.into_json() mapped into
JsonDeserializationError on failure. -/
def pageFromJson (j : Json) : PageResponse :=
  match deserializeCCEnvelope j with
  | .ok env => .ok env
  | .error msg => .error (.JsonDeserializationError msg)

/-- Final outcome of the pagination loop: Ok with the accumulated
indicators, an error, or exhaustion of the scripted pages while the loop
still wanted to issue another request. -/
inductive LoopOut where
  | ok (indicators : List CCIndicator) : LoopOut
  | err (e : TaxiiError) : LoopOut
  | outOfPages : LoopOut
  deriving DecidableEq

/-- The while-more loop of get_cc_indicators (src/cctaxiiclient.rs lines
238-252), scripted over the successive page outcomes. Returns the list of
URLs actually requested, in order, together with the loop outcome:
each iteration requests the current url, fails the whole call on a page
error, appends the envelope objects, recomputes the flag as
follow_pages AND more.unwrap_or(false), then either breaks when next is
absent or appends the next cursor to the url and continues while the flag
holds. -/
def runPages (follow_pages : Bool) :
    List PageResponse → String → List CCIndicator → List String × LoopOut
  | [], _, _ => ([], .outOfPages)
  | .error e :: _, url, _ => ([url], .err e)
  | .ok env :: rest, url, acc =>
      match env.next with
      | none => ([url], .ok (acc ++ env.objects))
      | some cursor =>
          if follow_pages && env.more.getD false then
            ((url ::
                (runPages follow_pages rest (url ++ "&next=" ++ cursor)
                  (acc ++ env.objects)).1),
             (runPages follow_pages rest (url ++ "&next=" ++ cursor)
                (acc ++ env.objects)).2)
          else ([url], .ok (acc ++ env.objects))

/-- The match-filter query fragment of get_cc_indicators: a fold over the
filter pairs in iteration order, each rendered as &match[k]=v. -/
def matchQuery (matchFilters : Option (List (String × String))) : String :=
  match matchFilters with
  | none => ""
  | some filters =>
      filters.foldl (fun acc kv => acc ++ "&match[" ++ kv.1 ++ "]=" ++ kv.2) ""

/-- The first-page URL of get_cc_indicators (src/cctaxiiclient.rs lines
227-237): base path with the defaulted limit, then added_after if present,
then the match filters. -/
def buildFirstUrl (root collection : String) (limit : Option Nat)
    (added_after : Option String)
    (matchFilters : Option (List (String × String))) : String :=
  (match added_after with
   | some timestamp =>
       root ++ "/collections/" ++ collection ++ "/objects/?limit=" ++
         toString (limit.getD 1000) ++ "&added_after=" ++ timestamp
   | none =>
       root ++ "/collections/" ++ collection ++ "/objects/?limit=" ++
         toString (limit.getD 1000)) ++ matchQuery matchFilters

/-- What one scripted call to get_cc_indicators did: which
collections-listing endpoints were requested (in order), which objects
URLs were requested, and the final outcome. -/
structure CallResult where
  listingUrls : List String
  urls : List String
  outcome : LoopOut
  deriving DecidableEq

/-- get_cc_indicators (src/cctaxiiclient.rs lines 207-254), scripted over
the collections-listing server and the page outcomes. The root is the
account for private=true and the literal api otherwise; a missing
collection id is resolved through get_collections against that resolved
root, requesting {root}/collections/ and taking entry 0, failing with
TaxiiCollectionError when the listing is empty; then the pagination loop
runs from the built first URL with an empty accumulator. -/
def get_cc_indicators (account : String) (collection_id : Option String)
    (limit : Option Nat) (priv : Bool) (added_after : Option String)
    (matchFilters : Option (List (String × String))) (follow_pages : Bool)
    (listingServer : String → Except TaxiiError Collections)
    (pages : List PageResponse) : CallResult :=
  let root := if priv then account else "api"
  match collection_id with
  | some id =>
      ⟨[],
       (runPages follow_pages pages
         (buildFirstUrl root id limit added_after matchFilters) []).1,
       (runPages follow_pages pages
         (buildFirstUrl root id limit added_after matchFilters) []).2⟩
  | none =>
      match get_collections root listingServer with
      | .error e => ⟨[collectionsEndpoint root], [], .err e⟩
      | .ok ids =>
          match ids.head? with
          | none =>
              ⟨[collectionsEndpoint root], [],
               .err (.TaxiiCollectionError "No collections available")⟩
          | some id =>
              ⟨[collectionsEndpoint root],
               (runPages follow_pages pages
                 (buildFirstUrl root id limit added_after matchFilters) []).1,
               (runPages follow_pages pages
                 (buildFirstUrl root id limit added_after matchFilters) []).2⟩

/-- Spec-side rendering of the match filters: one &match[k]=v segment per
entry, concatenated in iteration order. -/
def matchSegments : List (String × String) → String
  | [] => ""
  | kv :: rest => "&match[" ++ kv.1 ++ "]=" ++ kv.2 ++ matchSegments rest

/-- Spec-side first-page URL, following the words of the claim: root
(account when private, the literal api otherwise), then /collections/, the
collection, /objects/?limit= with the default 1000, then &added_after= if
present, then the match segments in iteration order. -/
def claimFirstUrl (account : String) (priv : Bool) (collection : String)
    (limit : Option Nat) (added_after : Option String)
    (matchFilters : Option (List (String × String))) : String :=
  (if priv then account else "api") ++ "/collections/" ++ collection ++
    "/objects/?limit=" ++ toString (limit.getD 1000) ++
    (match added_after with
     | some timestamp => "&added_after=" ++ timestamp
     | none => "") ++
    matchSegments (matchFilters.getD [])

/-- Spec-side cursor trail: each received cursor rendered as &next=cursor,
concatenated in arrival order. -/
def cursorTrail : List String → String
  | [] => ""
  | c :: rest => "&next=" ++ c ++ cursorTrail rest

/-- The cursors of a run of envelopes, in order (getD is only ever applied
under the hypothesis that next is present). -/
def cursorsOf (envs : List CCEnvelope) : List String :=
  envs.map (fun e => e.next.getD "")

/-- The URLs requested while walking a run of cursor-carrying envelopes
from a starting URL: each page requests the URL so far, then appends
&next=cursor for the next page. -/
def urlSteps (u : String) : List CCEnvelope → List String
  | [] => []
  | e :: rest => u :: urlSteps (u ++ "&next=" ++ e.next.getD "") rest

/-- The URL reached after walking a run of cursor-carrying envelopes. -/
def urlAfter (u : String) : List CCEnvelope → String
  | [] => u
  | e :: rest => urlAfter (u ++ "&next=" ++ e.next.getD "") rest

/-- An envelope that keeps the pagination going: more is literally true and
a next cursor is present. -/
def continuing (e : CCEnvelope) : Prop :=
  e.more = some true ∧ e.next ≠ none

instance (e : CCEnvelope) : Decidable (continuing e) := by
  unfold continuing
  infer_instance

/-- A fixed sample indicator used to instantiate witnesses. -/
def sampleIndicator (tag : String) : CCIndicator :=
  ⟨tag, "d", "id-" ++ tag, "m", "n", "p", "stix", "2.1", "2.1", "indicator", "v"⟩

/-- A sample continuing envelope: more is true and a cursor is present. -/
def envA : CCEnvelope :=
  ⟨some true, some "tok1", [sampleIndicator "a", sampleIndicator "b"]⟩

/-- A sample final envelope: more is false and no cursor is present. -/
def envB : CCEnvelope :=
  ⟨some false, none, [sampleIndicator "c"]⟩

/-- A sample failed page fetch. -/
def envErrPage : PageResponse :=
  .error (.TaxiiConnectionError "Request failed to execute")

/-- A sample collection used to instantiate witnesses. -/
def colX : Collection :=
  ⟨true, false, "abc123", ["application/taxii+json;version=2.1"], "X", "X title"⟩

/-- A sample listing server that recognises only the private-root endpoint
of the account acct: requests against any other endpoint fail, so a run
that lists successfully must have resolved the private root. -/
def acctListing : String → Except TaxiiError Collections :=
  fun endpoint =>
    if endpoint = "acct/collections/" then .ok ⟨[colX]⟩
    else .error (.TaxiiNotFound ⟨404, "not found"⟩)

/-- A sample listing server whose every listing is empty. -/
def emptyListing : String → Except TaxiiError Collections :=
  fun _ => .ok ⟨[]⟩

theorem runPages_head_url (f : Bool) (p : PageResponse) (rest : List PageResponse)
    (u : String) (acc : List CCIndicator) :
    ((runPages f (p :: rest) u acc).1).head? = some u := by
  cases p with
  | error e => simp [runPages]
  | ok env =>
      cases hn : env.next with
      | none => simp [runPages, hn]
      | some c =>
          by_cases hb : (f && env.more.getD false) = true
          · simp [runPages, hn, hb]
          · simp [runPages, hn, hb]

theorem runPages_stop (f : Bool) (env : CCEnvelope) (rest : List PageResponse)
    (u : String) (acc : List CCIndicator)
    (h : env.next = none ∨ env.more.getD false = false) :
    runPages f (.ok env :: rest) u acc = ([u], .ok (acc ++ env.objects)) := by
  rcases h with h | h
  · simp [runPages, h]
  · cases hn : env.next with
    | none => simp [runPages, hn]
    | some c => simp [runPages, hn, h]

theorem runPages_step (f : Bool) (env : CCEnvelope) (cursor : String)
    (rest : List PageResponse) (u : String) (acc : List CCIndicator)
    (hc : env.next = some cursor) (hm : (f && env.more.getD false) = true) :
    runPages f (.ok env :: rest) u acc
      = ((u :: (runPages f rest (u ++ "&next=" ++ cursor) (acc ++ env.objects)).1),
         (runPages f rest (u ++ "&next=" ++ cursor) (acc ++ env.objects)).2) := by
  simp [runPages, hc, hm]

theorem runPages_drop_after_stop (env : CCEnvelope)
    (h : env.next = none ∨ env.more.getD false = false) :
    ∀ (pre : List PageResponse) (f : Bool) (rest : List PageResponse)
      (u : String) (acc : List CCIndicator),
      runPages f (pre ++ .ok env :: rest) u acc
        = runPages f (pre ++ [.ok env]) u acc := by
  intro pre
  induction pre with
  | nil =>
      intro f rest u acc
      simp only [List.nil_append]
      rw [runPages_stop f env rest u acc h, runPages_stop f env [] u acc h]
  | cons p pre' ih =>
      intro f rest u acc
      cases p with
      | error e => simp [runPages]
      | ok e' =>
          cases hn : e'.next with
          | none => simp [runPages, hn]
          | some c =>
              by_cases hb : (f && e'.more.getD false) = true
              · simp only [List.cons_append, runPages, hn, hb, if_true, List.append_eq]
                rw [ih]
              · simp [runPages, hn, hb]

theorem runPages_walk (envs : List CCEnvelope)
    (h : ∀ e ∈ envs, continuing e) :
    ∀ (rest : List PageResponse) (u : String) (acc : List CCIndicator),
      runPages true (envs.map .ok ++ rest) u acc
        = (urlSteps u envs ++
            (runPages true rest (urlAfter u envs)
              (acc ++ (envs.map CCEnvelope.objects).flatten)).1,
           (runPages true rest (urlAfter u envs)
              (acc ++ (envs.map CCEnvelope.objects).flatten)).2) := by
  induction envs with
  | nil => intro rest u acc; simp [urlSteps, urlAfter]
  | cons e es ih =>
      intro rest u acc
      obtain ⟨hm, hn⟩ := h e (List.mem_cons_self e es)
      obtain ⟨c, hc⟩ := Option.ne_none_iff_exists'.mp hn
      have hstep : (true && e.more.getD false) = true := by simp [hm]
      rw [List.map_cons, List.cons_append]
      rw [runPages_step true e c (es.map PageResponse.ok ++ rest) u acc hc hstep]
      rw [ih (fun x hx => h x (List.mem_cons_of_mem e hx)) rest
          (u ++ "&next=" ++ c) (acc ++ e.objects)]
      simp [urlSteps, urlAfter, hc, List.append_assoc]

theorem urlSteps_length (envs : List CCEnvelope) :
    ∀ u : String, (urlSteps u envs).length = envs.length := by
  induction envs with
  | nil => intro u; simp [urlSteps]
  | cons e es ih => intro u; simp [urlSteps, ih]

theorem urlAfter_trail (envs : List CCEnvelope) :
    ∀ u : String, urlAfter u envs = u ++ cursorTrail (cursorsOf envs) := by
  induction envs with
  | nil => intro u; simp [urlAfter, cursorsOf, cursorTrail, String.append_empty]
  | cons e es ih =>
      intro u
      simp [urlAfter, cursorsOf, cursorTrail, ih, String.append_assoc]

theorem matchQuery_foldl (l : List (String × String)) :
    ∀ acc : String,
      l.foldl (fun acc kv => acc ++ "&match[" ++ kv.1 ++ "]=" ++ kv.2) acc
        = acc ++ matchSegments l := by
  induction l with
  | nil => intro acc; simp [matchSegments, String.append_empty]
  | cons kv rest ih =>
      intro acc
      rw [List.foldl_cons, ih]
      simp [matchSegments, String.append_assoc]

theorem matchQuery_eq_segments (mf : Option (List (String × String))) :
    matchQuery mf = matchSegments (mf.getD []) := by
  cases mf with
  | none => rfl
  | some l =>
      show List.foldl _ "" l = _
      rw [matchQuery_foldl l ""]
      exact String.empty_append _

theorem buildFirstUrl_claim (account : String) (priv : Bool) (collection : String)
    (limit : Option Nat) (added_after : Option String)
    (mf : Option (List (String × String))) :
    buildFirstUrl (if priv then account else "api") collection limit added_after mf
      = claimFirstUrl account priv collection limit added_after mf := by
  rw [buildFirstUrl.eq_def, claimFirstUrl.eq_def, matchQuery_eq_segments]
  cases added_after <;>
    simp [String.append_assoc, String.append_empty, String.empty_append]

theorem runPages_no_follow (env : CCEnvelope) (rest : List PageResponse)
    (u : String) (acc : List CCIndicator) :
    runPages false (.ok env :: rest) u acc = ([u], .ok (acc ++ env.objects)) := by
  cases hn : env.next with
  | none => simp [runPages, hn]
  | some c => simp [runPages, hn]

/-- C1: with follow_pages = true and a scripted page sequence of N envelopes
that each carry more = true and a next cursor followed by one envelope with
more = false, get_cc_indicators issues exactly N plus 1 transport requests
and returns Ok of the concatenation of all the object lists, in page order
with each page keeping its envelope order. -/
theorem get_cc_indicators_follow_pages_concat
    (envs : List CCEnvelope) (lastEnv : CCEnvelope)
    (hcont : ∀ e ∈ envs, continuing e) (hlast : lastEnv.more = some false)
    (account cid : String) (limit : Option Nat) (priv : Bool)
    (added_after : Option String) (mf : Option (List (String × String)))
    (listingServer : String → Except TaxiiError Collections) :
    (get_cc_indicators account (some cid) limit priv added_after mf true
        listingServer (envs.map .ok ++ [.ok lastEnv])).urls.length
      = envs.length + 1 ∧
    (get_cc_indicators account (some cid) limit priv added_after mf true
        listingServer (envs.map .ok ++ [.ok lastEnv])).outcome
      = .ok ((envs.map CCEnvelope.objects).flatten ++ lastEnv.objects) := by
  have hstop : lastEnv.next = none ∨ lastEnv.more.getD false = false :=
    Or.inr (by simp [hlast])
  constructor
  · simp only [get_cc_indicators]
    rw [runPages_walk envs hcont [.ok lastEnv] _ []]
    rw [runPages_stop true lastEnv [] _ _ hstop]
    simp [urlSteps_length]
  · simp only [get_cc_indicators]
    rw [runPages_walk envs hcont [.ok lastEnv] _ []]
    rw [runPages_stop true lastEnv [] _ _ hstop]
    simp

theorem get_cc_indicators_follow_pages_concat_witness :
    (∀ e ∈ [envA], continuing e) ∧ envB.more = some false ∧
    ((get_cc_indicators "acct" (some "col") none false none none true
        emptyListing ([envA].map .ok ++ [.ok envB])).urls.length = 1 + 1 ∧
     (get_cc_indicators "acct" (some "col") none false none none true
        emptyListing ([envA].map .ok ++ [.ok envB])).outcome
       = .ok (([envA].map CCEnvelope.objects).flatten ++ envB.objects)) :=
  ⟨by decide, rfl,
   get_cc_indicators_follow_pages_concat [envA] envB (by decide) rfl
     "acct" "col" none false none none emptyListing⟩

/-- C2: once a fetched envelope has no next cursor, or its more flag is
absent or false, the loop of get_cc_indicators never issues another
transport request, for either value of follow_pages: the run on any pages
script that continues past that envelope equals the run on the script
truncated right after it, and when that envelope is the one being fetched
the loop requests only the current URL, still appends the envelope objects,
and stops with them. -/
theorem get_cc_indicators_stop_halts (env : CCEnvelope)
    (h : env.next = none ∨ env.more.getD false = false) :
    (∀ (account : String) (collection_id : Option String) (limit : Option Nat)
       (priv : Bool) (added_after : Option String)
       (mf : Option (List (String × String))) (follow_pages : Bool)
       (listingServer : String → Except TaxiiError Collections)
       (pre rest : List PageResponse),
       get_cc_indicators account collection_id limit priv added_after mf
           follow_pages listingServer (pre ++ .ok env :: rest)
         = get_cc_indicators account collection_id limit priv added_after mf
             follow_pages listingServer (pre ++ [.ok env])) ∧
    (∀ (follow_pages : Bool) (rest : List PageResponse) (u : String)
       (acc : List CCIndicator),
       runPages follow_pages (.ok env :: rest) u acc
         = ([u], .ok (acc ++ env.objects))) := by
  constructor
  · intro account collection_id limit priv added_after mf f listingServer pre rest
    cases collection_id with
    | some id =>
        simp only [get_cc_indicators]
        rw [runPages_drop_after_stop env h pre]
    | none =>
        cases hls : listingServer (collectionsEndpoint (if priv then account else "api")) with
        | error e => simp [get_cc_indicators, get_collections, hls, Except.map]
        | ok cols =>
            cases cols with
            | mk l =>
                cases l with
                | nil => simp [get_cc_indicators, get_collections, hls, Except.map]
                | cons c cs =>
                    simp only [get_cc_indicators, get_collections, hls, Except.map,
                      List.map_cons, List.head?]
                    rw [runPages_drop_after_stop env h pre]
  · intro f rest u acc
    exact runPages_stop f env rest u acc h

theorem get_cc_indicators_stop_halts_witness :
    (envB.next = none ∨ envB.more.getD false = false) ∧
    runPages true [.ok envB, envErrPage] "u" [] = (["u"], .ok ([] ++ envB.objects)) :=
  ⟨Or.inl rfl,
   (get_cc_indicators_stop_halts envB (Or.inl rfl)).2 true [envErrPage] "u" []⟩

/-- C3: with follow_pages = false, get_cc_indicators issues exactly one
transport request, against the first-page URL, and returns Ok of exactly
the first envelope object list, whatever that envelope carries. -/
theorem get_cc_indicators_single_page (env : CCEnvelope) :
    ∀ (account cid : String) (limit : Option Nat) (priv : Bool)
      (added_after : Option String) (mf : Option (List (String × String)))
      (listingServer : String → Except TaxiiError Collections) (rest : List PageResponse),
      get_cc_indicators account (some cid) limit priv added_after mf false
          listingServer (.ok env :: rest)
        = ⟨[],
           [buildFirstUrl (if priv then account else "api") cid limit
              added_after mf],
           .ok env.objects⟩ := by
  intro account cid limit priv added_after mf listingServer rest
  simp only [get_cc_indicators]
  rw [runPages_no_follow env rest _ []]
  simp

/-- C4 counterexample: with an empty collections listing, the error carried
by the CollectionError is the string with a capital N, not the claimed
lowercase message "no collections available". -/
theorem get_cc_indicators_collection_message_counterexample :
    (get_cc_indicators "acct" none none false none none true emptyListing []).outcome
        = .err (.TaxiiCollectionError "No collections available") ∧
    (get_cc_indicators "acct" none none false none none true emptyListing []).outcome
        ≠ .err (.TaxiiCollectionError "no collections available") := by
  constructor
  · rfl
  · decide

/-- C4 (amended): when collection_id is None, get_cc_indicators first calls
the collections listing against the resolved root, requesting the endpoint
root/collections/ with root the account for private = true and the literal
api otherwise, and targets the first identifier of that listing in
server-returned order; when the listing at that endpoint is empty, it
yields a TaxiiCollectionError carrying the message
"No collections available" and issues no objects request; when
collection_id is Some, no listing endpoint is requested and the result
does not depend on the listing server at all. -/
theorem get_cc_indicators_collection_selection :
    (∀ (account : String) (limit : Option Nat) (priv : Bool)
       (added_after : Option String) (mf : Option (List (String × String)))
       (f : Bool) (listingServer : String → Except TaxiiError Collections)
       (c : Collection) (cs : List Collection) (pages : List PageResponse),
       listingServer (collectionsEndpoint (if priv then account else "api"))
           = .ok ⟨c :: cs⟩ →
       get_cc_indicators account none limit priv added_after mf f
           listingServer pages
         = ⟨[collectionsEndpoint (if priv then account else "api")],
            (runPages f pages (buildFirstUrl (if priv then account else "api")
               c.id limit added_after mf) []).1,
            (runPages f pages (buildFirstUrl (if priv then account else "api")
               c.id limit added_after mf) []).2⟩) ∧
    (∀ (account : String) (limit : Option Nat) (priv : Bool)
       (added_after : Option String) (mf : Option (List (String × String)))
       (f : Bool) (listingServer : String → Except TaxiiError Collections)
       (pages : List PageResponse),
       listingServer (collectionsEndpoint (if priv then account else "api"))
           = .ok ⟨[]⟩ →
       get_cc_indicators account none limit priv added_after mf f
           listingServer pages
         = ⟨[collectionsEndpoint (if priv then account else "api")], [],
            .err (.TaxiiCollectionError "No collections available")⟩) ∧
    (∀ (account id : String) (limit : Option Nat) (priv : Bool)
       (added_after : Option String) (mf : Option (List (String × String)))
       (f : Bool) (listingServer listingServer' : String → Except TaxiiError Collections)
       (pages : List PageResponse),
       (get_cc_indicators account (some id) limit priv added_after mf f
           listingServer pages).listingUrls = [] ∧
       get_cc_indicators account (some id) limit priv added_after mf f
           listingServer pages
         = get_cc_indicators account (some id) limit priv added_after mf f
             listingServer' pages) := by
  refine ⟨?_, ?_, ?_⟩
  · intro account limit priv added_after mf f listingServer c cs pages hls
    simp [get_cc_indicators, get_collections, hls, Except.map]
  · intro account limit priv added_after mf f listingServer pages hls
    simp [get_cc_indicators, get_collections, hls, Except.map]
  · intro account id limit priv added_after mf f listingServer listingServer' pages
    exact ⟨rfl, rfl⟩

theorem get_cc_indicators_collection_selection_witness :
    acctListing (collectionsEndpoint (if true then "acct" else "api"))
        = .ok ⟨[colX]⟩ ∧
    get_cc_indicators "acct" none none true none none false acctListing []
      = ⟨[collectionsEndpoint (if true then "acct" else "api")],
         (runPages false [] (buildFirstUrl (if true then "acct" else "api")
            colX.id none none none) []).1,
         (runPages false [] (buildFirstUrl (if true then "acct" else "api")
            colX.id none none none) []).2⟩ :=
  ⟨rfl,
   get_cc_indicators_collection_selection.1 "acct" none true none none false
     acctListing colX [] [] rfl⟩

/-- C5: the request method classifies the agent call outcome exhaustively:
a 401 status error becomes TaxiiAuthorizationError with the raw response, a
404 becomes TaxiiNotFound, every other status error becomes
TaxiiGenericError, a call that could not execute becomes
TaxiiConnectionError with a descriptive message, a successful call is Ok
with the raw response, and no other error variant is ever produced. -/
theorem request_status_mapping :
    (∀ resp : Response, request (.success resp) = .ok resp) ∧
    (∀ resp : Response,
       request (.statusError 401 resp) = .error (.TaxiiAuthorizationError resp)) ∧
    (∀ resp : Response,
       request (.statusError 404 resp) = .error (.TaxiiNotFound resp)) ∧
    (∀ (code : Nat) (resp : Response), code ≠ 401 → code ≠ 404 →
       request (.statusError code resp) = .error (.TaxiiGenericError resp)) ∧
    (request .transportError
       = .error (.TaxiiConnectionError "Request failed to execute")) ∧
    (∀ (o : CallOutcome) (msg : String),
       request o ≠ .error (.TaxiiCollectionError msg) ∧
       request o ≠ .error (.JsonDeserializationError msg)) := by
  refine ⟨fun _ => rfl, fun _ => rfl, fun _ => rfl, ?_, rfl, ?_⟩
  · intro code resp h1 h2
    simp [request, h1, h2]
  · intro o msg
    cases o with
    | success r => exact ⟨by simp [request], by simp [request]⟩
    | transportError => exact ⟨by simp [request], by simp [request]⟩
    | statusError code r =>
        by_cases h1 : code = 401
        · subst h1; exact ⟨by simp [request], by simp [request]⟩
        · by_cases h2 : code = 404
          · subst h2; exact ⟨by simp [request, h1], by simp [request, h1]⟩
          · exact ⟨by simp [request, h1, h2], by simp [request, h1, h2]⟩

theorem request_status_mapping_witness :
    (500 : Nat) ≠ 401 ∧ (500 : Nat) ≠ 404 ∧
    request (.statusError 500 ⟨500, "b"⟩) = .error (.TaxiiGenericError ⟨500, "b"⟩) :=
  ⟨by decide, by decide,
   request_status_mapping.2.2.2.1 500 ⟨500, "b"⟩ (by decide) (by decide)⟩

/-- C6: the first-page URL is the fixed-order concatenation root then
/collections/ then the collection then /objects/?limit= with the limit
defaulting to 1000, the root being the account name for private = true and
the literal api otherwise, then the optional added_after parameter, then
one match segment per filter entry in iteration order; each page fetched
while the loop continues makes the next request against the current URL
with the next cursor appended. -/
theorem get_cc_indicators_url_construction :
    (∀ (account cid : String) (limit : Option Nat) (priv : Bool)
       (added_after : Option String) (mf : Option (List (String × String)))
       (f : Bool) (listingServer : String → Except TaxiiError Collections)
       (p : PageResponse) (rest : List PageResponse),
       (get_cc_indicators account (some cid) limit priv added_after mf f
           listingServer (p :: rest)).urls.head?
         = some (claimFirstUrl account priv cid limit added_after mf)) ∧
    (∀ (f : Bool) (env : CCEnvelope) (cursor : String)
       (rest : List PageResponse) (u : String) (acc : List CCIndicator),
       env.next = some cursor → (f && env.more.getD false) = true →
       (runPages f (.ok env :: rest) u acc).1
         = u :: (runPages f rest (u ++ "&next=" ++ cursor)
             (acc ++ env.objects)).1) := by
  constructor
  · intro account cid limit priv added_after mf f listingServer p rest
    rw [← buildFirstUrl_claim]
    exact runPages_head_url f p rest _ []
  · intro f env cursor rest u acc hc hm
    rw [runPages_step f env cursor rest u acc hc hm]

theorem get_cc_indicators_url_construction_witness :
    envA.next = some "tok1" ∧ (true && envA.more.getD false) = true ∧
    (runPages true [.ok envA] "u" []).1
      = "u" :: (runPages true [] ("u" ++ "&next=" ++ "tok1")
          ([] ++ envA.objects)).1 :=
  ⟨rfl, rfl,
   get_cc_indicators_url_construction.2 true envA "tok1" [] "u" [] rfl rfl⟩

/-- C7: when any page of a multi-page retrieval fails, after a run of
continuing envelopes, get_cc_indicators returns exactly that error: the
outcome carries no indicator list, so the objects accumulated from the
earlier successful pages are discarded, and the failing request was the
last one issued. -/
theorem get_cc_indicators_error_aborts (envs : List CCEnvelope)
    (hcont : ∀ e ∈ envs, continuing e) :
    ∀ (failure : TaxiiError) (account cid : String) (limit : Option Nat)
      (priv : Bool) (added_after : Option String)
      (mf : Option (List (String × String)))
      (listingServer : String → Except TaxiiError Collections) (rest : List PageResponse),
      (get_cc_indicators account (some cid) limit priv added_after mf true
          listingServer (envs.map .ok ++ .error failure :: rest)).outcome
        = .err failure ∧
      (get_cc_indicators account (some cid) limit priv added_after mf true
          listingServer (envs.map .ok ++ .error failure :: rest)).urls.length
        = envs.length + 1 := by
  intro failure account cid limit priv added_after mf listingServer rest
  constructor
  · simp only [get_cc_indicators]
    rw [runPages_walk envs hcont (.error failure :: rest) _ []]
    simp [runPages]
  · simp only [get_cc_indicators]
    rw [runPages_walk envs hcont (.error failure :: rest) _ []]
    simp [runPages, urlSteps_length]

theorem get_cc_indicators_error_aborts_witness :
    (∀ e ∈ [envA], continuing e) ∧
    ((get_cc_indicators "acct" (some "col") none false none none true
        emptyListing ([envA].map .ok ++
          .error (.TaxiiConnectionError "Request failed to execute") :: [])).outcome
       = .err (.TaxiiConnectionError "Request failed to execute") ∧
     (get_cc_indicators "acct" (some "col") none false none none true
        emptyListing ([envA].map .ok ++
          .error (.TaxiiConnectionError "Request failed to execute") :: [])).urls.length
       = 1 + 1) :=
  ⟨by decide,
   get_cc_indicators_error_aborts [envA] (by decide)
     (.TaxiiConnectionError "Request failed to execute")
     "acct" "col" none false none none emptyListing []⟩

/-- C8: cursors accumulate in the request URL: after a run of k continuing
envelopes, the URL of request k plus 1 is the first-page URL followed by
one next segment per received cursor, all k of them, in arrival order and
with none removed. -/
theorem get_cc_indicators_cursor_accumulation (envs : List CCEnvelope)
    (hcont : ∀ e ∈ envs, continuing e) :
    ∀ (account cid : String) (limit : Option Nat) (priv : Bool)
      (added_after : Option String) (mf : Option (List (String × String)))
      (listingServer : String → Except TaxiiError Collections)
      (p : PageResponse) (rest : List PageResponse),
      ((get_cc_indicators account (some cid) limit priv added_after mf true
          listingServer (envs.map .ok ++ p :: rest)).urls)[envs.length]?
        = some (buildFirstUrl (if priv then account else "api") cid limit
            added_after mf ++ cursorTrail (cursorsOf envs)) := by
  intro account cid limit priv added_after mf listingServer p rest
  simp only [get_cc_indicators]
  rw [runPages_walk envs hcont (p :: rest) _ []]
  show (urlSteps _ envs ++ _)[envs.length]? = _
  rw [List.getElem?_append_right (by rw [urlSteps_length])]
  rw [urlSteps_length]
  simp only [Nat.sub_self]
  have hhead := runPages_head_url true p rest
    (urlAfter (buildFirstUrl (if priv then account else "api") cid limit
      added_after mf) envs) ([] ++ (envs.map CCEnvelope.objects).flatten)
  rw [← List.head?_eq_getElem?]
  rw [hhead, urlAfter_trail]

theorem get_cc_indicators_cursor_accumulation_witness :
    (∀ e ∈ [envA], continuing e) ∧
    ((get_cc_indicators "acct" (some "col") none false none none true
        emptyListing ([envA].map .ok ++ .ok envB :: [])).urls)[1]?
      = some (buildFirstUrl "api" "col" none none none
          ++ cursorTrail (cursorsOf [envA])) :=
  ⟨by decide,
   get_cc_indicators_cursor_accumulation [envA] (by decide)
     "acct" "col" none false none none emptyListing (.ok envB) []⟩

theorem single_error_page_outcome (failure : TaxiiError) :
    ∀ (account cid : String) (limit : Option Nat) (priv : Bool)
      (added_after : Option String) (mf : Option (List (String × String)))
      (f : Bool) (listingServer : String → Except TaxiiError Collections),
      (get_cc_indicators account (some cid) limit priv added_after mf f
          listingServer [.error failure]).outcome = .err failure := by
  intro account cid limit priv added_after mf f listingServer
  simp [get_cc_indicators, runPages]

/-- C9: construction stores the fixed Content-Type and Accept headers and
an Authorization header equal to Basic followed by the Base64 encoding of
username colon api_key, and records the username as the account; the
constructed client depends on the api_key only through that encoded header
value, so only the derived header, never the raw key, is stored. -/
theorem new_header_composition :
    (∀ username api_key : String,
       ((CCTaxiiClient.new username api_key).common_headers).lookup "Authorization"
         = some ("Basic " ++ base64Encode (username ++ ":" ++ api_key)) ∧
       ((CCTaxiiClient.new username api_key).common_headers).lookup "Content-Type"
         = some "application/taxii+json;version=2.1" ∧
       ((CCTaxiiClient.new username api_key).common_headers).lookup "Accept"
         = some "application/taxii+json;version=2.1" ∧
       (CCTaxiiClient.new username api_key).account = username) ∧
    (∀ username k k' : String,
       "Basic " ++ base64Encode (username ++ ":" ++ k)
           = "Basic " ++ base64Encode (username ++ ":" ++ k') →
       CCTaxiiClient.new username k = CCTaxiiClient.new username k') := by
  constructor
  · intro username api_key
    exact ⟨rfl, rfl, rfl, rfl⟩
  · intro username k k' h
    simp only [CCTaxiiClient.new]
    rw [h]

theorem new_header_composition_witness :
    "Basic " ++ base64Encode ("u" ++ ":" ++ "k")
        = "Basic " ++ base64Encode ("u" ++ ":" ++ "k") ∧
    CCTaxiiClient.new "u" "k" = CCTaxiiClient.new "u" "k" :=
  ⟨rfl, new_header_composition.2 "u" "k" "k" rfl⟩

/-- C10: objects is the only required envelope field: a JSON object body
without an objects field fails to decode, and the corresponding page makes
get_cc_indicators fail with a JsonDeserializationError; a body with
objects present but no more and no next fields decodes successfully with
both options none. -/
theorem envelope_objects_required :
    (∀ fields : List (String × Json), jsonLookup "objects" fields = none →
       ∃ msg : String,
         deserializeCCEnvelope (.obj fields) = .error msg ∧
         ∀ (account cid : String) (limit : Option Nat) (priv : Bool)
           (added_after : Option String) (mf : Option (List (String × String)))
           (f : Bool) (listingServer : String → Except TaxiiError Collections),
           (get_cc_indicators account (some cid) limit priv added_after mf f
               listingServer [pageFromJson (.obj fields)]).outcome
             = .err (.JsonDeserializationError msg)) ∧
    (∀ (fields : List (String × Json)) (elems : List Json)
       (objs : List CCIndicator),
       jsonLookup "more" fields = none → jsonLookup "next" fields = none →
       jsonLookup "objects" fields = some (.arr elems) →
       decodeIndicatorList elems = .ok objs →
       deserializeCCEnvelope (.obj fields) = .ok ⟨none, none, objs⟩) := by
  constructor
  · intro fields h
    obtain ⟨msg, hmsg⟩ : ∃ msg, deserializeCCEnvelope (.obj fields) = .error msg := by
      simp only [deserializeCCEnvelope, h]
      cases hb : decodeOptBool "more" (jsonLookup "more" fields) with
      | error m => exact ⟨m, rfl⟩
      | ok mo =>
          cases hn : decodeOptString "next" (jsonLookup "next" fields) with
          | error m => exact ⟨m, rfl⟩
          | ok nx => exact ⟨"missing field objects", rfl⟩
    refine ⟨msg, hmsg, ?_⟩
    intro account cid limit priv added_after mf f listingServer
    have hp : pageFromJson (.obj fields) = .error (.JsonDeserializationError msg) := by
      simp [pageFromJson, hmsg]
    rw [hp]
    exact single_error_page_outcome (.JsonDeserializationError msg)
      account cid limit priv added_after mf f listingServer
  · intro fields elems objs h1 h2 h3 h4
    simp only [deserializeCCEnvelope, h1, h2, h3, h4, decodeOptBool, decodeOptString]

theorem envelope_objects_required_witness :
    jsonLookup "objects" [("more", Json.bool true)] = none ∧
    (∃ msg : String,
       deserializeCCEnvelope (.obj [("more", Json.bool true)]) = .error msg ∧
       ∀ (account cid : String) (limit : Option Nat) (priv : Bool)
         (added_after : Option String) (mf : Option (List (String × String)))
         (f : Bool) (listingServer : String → Except TaxiiError Collections),
         (get_cc_indicators account (some cid) limit priv added_after mf f
             listingServer [pageFromJson (.obj [("more", Json.bool true)])]).outcome
           = .err (.JsonDeserializationError msg)) :=
  ⟨rfl, envelope_objects_required.1 [("more", Json.bool true)] rfl⟩

theorem get_cc_indicators_single_page_witness :
    get_cc_indicators "acct" (some "col") none false none none false
        emptyListing [.ok envA]
      = ⟨[], [buildFirstUrl (if false then "acct" else "api") "col" none none none],
         .ok envA.objects⟩ :=
  get_cc_indicators_single_page envA "acct" "col" none false none none emptyListing []
